import Mathlib

/-!
Shallow embedding of the anki-agent repository (src/anki_flow).

Part 1 models the Python values the code manipulates (JSON-decoded data:
None, bool, int, str, list, dict with string keys) together with the
Python primitives the source relies on: truthiness, `in`, `str()`,
`.strip()`, `.lower()`, `dict.get`.

Part 2 embeds `AnkiConnectAddNotesTool` from
`src/anki_flow/src/anki_flow/crews/tools/custom_tool.py`: the `_request`
helper, `_ensure_deck`, `_ensure_model_fields` and `_run`.  The external
HTTP service is abstracted as an oracle mapping (action, params) to one
of the outcomes the `try/except` ladder in `_request` distinguishes.

Part 3 embeds the snapshot store and Part 4 the review workflow from
`src/anki_flow/src/anki_flow/main.py`.
-/

/-- A Python value as produced by `json.loads` / manipulated by the tool:
`None`, booleans, integers, strings, lists, and dicts with string keys. -/
inductive PyVal where
  | none
  | bool (b : Bool)
  | int (n : Int)
  | str (s : String)
  | list (xs : List PyVal)
  | dict (kvs : List (String × PyVal))

/-- A Python dict with string keys, as guaranteed for each note by the
pydantic input schema (`notes: List[dict]`). -/
abbrev PyDict := List (String × PyVal)

/-- Python truthiness: `None`, `False`, `0`, `""`, `[]`, `{}` are falsy. -/
def PyVal.truthy : PyVal → Bool
  | .none => false
  | .bool b => b
  | .int n => n != 0
  | .str s => s.data != []
  | .list xs => !xs.isEmpty
  | .dict kvs => !kvs.isEmpty

/-- `isinstance(v, list)`. -/
def PyVal.isList : PyVal → Bool
  | .list _ => true
  | _ => false

/-- `d.get(k)`: `some v` when the key is present, `none` when absent. -/
def dget (n : PyDict) (k : String) : Option PyVal := List.lookup k n

/-- Python `s.strip()` restricted to whitespace (the argument-free form). -/
def pyStrip (s : String) : String :=
  ⟨((s.data.dropWhile Char.isWhitespace).reverse.dropWhile Char.isWhitespace).reverse⟩

/-- Python `s.lower()` (ASCII case mapping, which covers every string the
workflow compares: the `y`/`n` review tokens). -/
def pyLower (s : String) : String :=
  ⟨s.data.map Char.toLower⟩

/-- Does the list `xs` start with `pre` (element-wise equality)? -/
def listStarts [BEq α] : List α → List α → Bool
  | [], _ => true
  | _ :: _, [] => false
  | a :: as, b :: bs => (a == b) && listStarts as bs

/-- Does `xs` occur contiguously inside `ys`?  Used both for Python's
substring test `k in s` and to state that an error message names a URL. -/
def listHasSub [BEq α] (xs : List α) : List α → Bool
  | [] => listStarts xs []
  | b :: bs => listStarts xs (b :: bs) || listHasSub xs bs

/-- Python `k in v` for a string `k`: key membership for dicts, substring
test for strings, element equality for lists; `none` marks the
`TypeError` Python raises on non-container values. -/
def pyIn (k : String) (v : PyVal) : Option Bool :=
  match v with
  | PyVal.dict kvs => some (kvs.any fun p => p.1 == k)
  | PyVal.str s => some (listHasSub k.data s.data)
  | PyVal.list xs => some (xs.any fun x => match x with | PyVal.str t => t == k | _ => false)
  | _ => Option.none

/-- Truthiness of an `Optional[str]` Python value: `None` and `""` are
falsy, every other string is truthy. -/
def optStrTruthy : Option String → Bool
  | Option.none => false
  | some s => s.data != []

/-- Join rendered items with `", "`, as Python's list formatting does. -/
def commaSep : List String → String
  | [] => ""
  | [x] => x
  | x :: y :: xs => x ++ ", " ++ commaSep (y :: xs)

/-- Decimal digits of a natural number (fuel-based helper). -/
def natDigitsAux : Nat → Nat → List Char
  | 0, _ => []
  | fuel + 1, n => if n < 10 then [Nat.digitChar n]
      else natDigitsAux fuel (n / 10) ++ [Nat.digitChar (n % 10)]

/-- Decimal rendering of a natural number. -/
def natRepr (n : Nat) : String := ⟨natDigitsAux (n + 1) n⟩

/-- Python `repr(n)` for an int. -/
def intRepr (n : Int) : String :=
  if n < 0 then "-" ++ natRepr n.natAbs else natRepr n.natAbs

mutual
/-- Python `repr` of a JSON-decoded value (string escaping elided: the
values rendered by the source are error payloads and index lists). -/
def pyRepr : PyVal → String
  | PyVal.none => "None"
  | PyVal.bool b => if b then "True" else "False"
  | PyVal.int n => intRepr n
  | PyVal.str s => "\x27" ++ s ++ "\x27"
  | PyVal.list xs => "[" ++ commaSep (pyReprList xs) ++ "]"
  | PyVal.dict kvs => "\x7b" ++ commaSep (pyReprDict kvs) ++ "\x7d"

/-- `repr` of each element of a list. -/
def pyReprList : List PyVal → List String
  | [] => []
  | x :: xs => pyRepr x :: pyReprList xs

/-- `repr` of each `key: value` entry of a dict. -/
def pyReprDict : List (String × PyVal) → List String
  | [] => []
  | (k, v) :: kvs => ("\x27" ++ k ++ "\x27: " ++ pyRepr v) :: pyReprDict kvs
end

/-- Python `str(v)`: identity on strings, `repr`-like elsewhere. -/
def pyStr : PyVal → String
  | PyVal.str s => s
  | v => pyRepr v

/-- The rendering of a list of indices inside the validation error
message (`f"...: {invalid_indices}. ..."`). -/
def renderNatList (xs : List Nat) : String :=
  "[" ++ commaSep (xs.map natRepr) ++ "]"

/-! ## Part 2: `AnkiConnectAddNotesTool` (custom_tool.py, lines 63-144) -/

/-- Outcome of the single `requests.post` inside `_request`, matching the
cases its `try/except` ladder distinguishes: `requests.exceptions.ConnectionError`,
`requests.exceptions.Timeout`, any other `requests.RequestException`
(including a non-2xx status raised by `raise_for_status`), or a parsed
JSON response body.  Per the AnkiConnect protocol the body is an object
`\x7b"result": ..., "error": ...\x7d`, modelled as a `PyDict`. -/
inductive SvcOutcome where
  | connError (e : String)
  | timeout (e : String)
  | reqError (e : String)
  | response (body : PyDict)

/-- The external service, abstracted as an oracle from (action, params)
to the outcome of the one HTTP POST issued for that call. -/
def Svc := String → PyVal → SvcOutcome

namespace AnkiConnectAddNotesTool

/-- The message built for `requests.exceptions.ConnectionError`
(custom_tool.py line 79). -/
def connMsg (url e : String) : String :=
  "Failed to connect to AnkiConnect at " ++
    (url ++ (". Make sure Anki is running with AnkiConnect add-on enabled. Original error: " ++ e))

/-- The message built for `requests.exceptions.Timeout`
(custom_tool.py line 81). -/
def timeoutMsg (url e : String) : String :=
  "Timeout connecting to AnkiConnect at " ++
    (url ++ (". Anki might be slow to respond. Original error: " ++ e))

/-- `_request` (custom_tool.py lines 70-83): returns the Python pair
`(result, error)`.  On a parsed response, `data.get("error")` is tested
for truthiness (a missing or falsy error field means success) and a
truthy error value is surfaced as `str(data["error"])`; otherwise
`data.get("result")` is returned. -/
def request (svc : Svc) (url action : String) (params : PyVal) :
    Option PyVal × Option String :=
  match svc action params with
  | SvcOutcome.connError e => (Option.none, some (connMsg url e))
  | SvcOutcome.timeout e => (Option.none, some (timeoutMsg url e))
  | SvcOutcome.reqError e => (Option.none, some ("Request failed: " ++ e))
  | SvcOutcome.response body =>
      let ev := (List.lookup "error" body).getD PyVal.none
      if ev.truthy then (Option.none, some (pyStr ev))
      else (List.lookup "result" body, Option.none)

/-- `_ensure_deck` (lines 85-87): one `createDeck` call, error returned. -/
def ensure_deck (svc : Svc) (url deck : String) : Option String :=
  (request svc url "createDeck" (PyVal.dict [("deck", PyVal.str deck)])).2

/-- The `f"Model '...' missing required fields ..."` message of line 97.
CPython renders the set `\x7b"Front", "Back"\x7d` in hash order; the
exact element order is irrelevant to every property proved below. -/
def missingFieldsMsg (modelName : String) : String :=
  "Model \x27" ++ modelName ++ "\x27 missing required fields \x7b\x27Front\x27, \x27Back\x27\x7d"

/-- Does the returned field list contain the string `k`?  This is the
membership test performed by `needed.issubset(set(result))` (equality of
`k` against each element; only string elements can compare equal).  A
list containing an unhashable element would make `set(result)` raise in
Python; no property below exercises that case. -/
def fieldListHas (xs : List PyVal) (k : String) : Bool :=
  xs.any fun x => match x with | PyVal.str t => t == k | _ => false

/-- `_ensure_model_fields` (lines 89-98).  Python first tests `if err:`
(truthiness), then `if not result or not isinstance(result, list)` —
so a falsy result (including the empty list and `None` for a missing
key) or any non-list classifies as "Invalid response for model field
names" — and only then checks the required-field subset. -/
def ensure_model_fields (svc : Svc) (url modelName : String) : Bool × Option String :=
  let rr := request svc url "modelFieldNames" (PyVal.dict [("modelName", PyVal.str modelName)])
  if optStrTruthy rr.2 then (false, rr.2)
  else
    match rr.1.getD PyVal.none with
    | PyVal.list xs =>
        if xs.isEmpty then (false, some "Invalid response for model field names")
        else if fieldListHas xs "Front" && fieldListHas xs "Back" then (true, Option.none)
        else (false, some (missingFieldsMsg modelName))
    | _ => (false, some "Invalid response for model field names")

/-- The effective field map computed by the validation loop (line 107):
`n.get("fields") or ⟨"Front": n.get("Front"), "Back": n.get("Back")⟩`.
A missing or falsy `fields` entry (including an empty dict) selects the
synthesized fallback, whose two keys are always present (their values
are `None` when the flat keys are absent). -/
def validationFields (n : PyDict) : PyVal :=
  let explicit := (dget n "fields").getD PyVal.none
  if explicit.truthy then explicit
  else PyVal.dict [("Front", (dget n "Front").getD PyVal.none),
                   ("Back", (dget n "Back").getD PyVal.none)]

/-- The per-record test of line 108:
`not fields or "Front" not in fields or "Back" not in fields`,
with Python's short-circuit evaluation; `none` marks the `TypeError`
raised by `in` on a truthy non-container `fields` value. -/
def noteInvalid (n : PyDict) : Option Bool :=
  let fields := validationFields n
  if !fields.truthy then some true
  else
    match pyIn "Front" fields with
    | Option.none => Option.none
    | some hasF =>
        if !hasF then some true
        else (pyIn "Back" fields).map (fun hasB => !hasB)

/-- The index-collecting loop of lines 105-109, starting at index `i`. -/
def collectInvalidAux : Nat → List PyDict → Option (List Nat)
  | _, [] => some []
  | i, n :: rest =>
      match noteInvalid n, collectInvalidAux (i + 1) rest with
      | Option.none, _ => Option.none
      | some _, Option.none => Option.none
      | some b, some l => some (if b then i :: l else l)

/-- All invalid indices of the batch, in order (lines 105-109). -/
def collectInvalid (notes : List PyDict) : Option (List Nat) :=
  collectInvalidAux 0 notes

/-- The effective field map recomputed by the preparation loop
(line 126); unlike the validation loop it defaults the flat keys to the
empty string instead of `None`. -/
def preparationFields (n : PyDict) : PyVal :=
  let explicit := (dget n "fields").getD PyVal.none
  if explicit.truthy then explicit
  else PyVal.dict [("Front", (dget n "Front").getD (PyVal.str "")),
                   ("Back", (dget n "Back").getD (PyVal.str ""))]

/-- One prepared note as built by lines 128-136: deck name, model name,
the effective field map, a fixed `allowDuplicate: False` options block,
and `n.get("tags", [])`. -/
def prepareNote (deck modelName : String) (n : PyDict) : PyVal :=
  PyVal.dict
    [("deckName", PyVal.str deck),
     ("modelName", PyVal.str modelName),
     ("fields", preparationFields n),
     ("options", PyVal.dict [("allowDuplicate", PyVal.bool false)]),
     ("tags", (dget n "tags").getD (PyVal.list []))]

/-- The whole prepared batch (lines 124-136), order preserved. -/
def prepareNotes (deck modelName : String) (notes : List PyDict) : List PyVal :=
  notes.map (prepareNote deck modelName)

/-- `json.dumps(\x7b"error": msg\x7d)`, modelled as the dumped document. -/
def errOut (msg : String) : PyVal := PyVal.dict [("error", PyVal.str msg)]

/-- Same, for an `Optional[str]` error (the `_ensure_model_fields`
branch returns the optional message unmodified). -/
def errOutOpt (e : Option String) : PyVal :=
  PyVal.dict [("error", (e.map PyVal.str).getD PyVal.none)]

/-- Result of `_run`: either the JSON document the method returns, or an
uncaught exception (`TypeError` from `in` on a non-container; the
method's own `except` clause only catches `requests.RequestException`). -/
inductive RunOut where
  | crash
  | out (v : PyVal)

/-- `_run` (lines 100-144), paired with the ordered list of service
actions actually issued.  Stages, in source order: note validation
(collect every invalid index, fail the batch if any), the
`deck_name.strip()` check, `_ensure_deck` (`createDeck`),
`_ensure_model_fields` (`modelFieldNames`), preparation, `addNotes`. -/
def run (svc : Svc) (deck modelName : String) (notesOpt : Option (List PyDict))
    (url : String) : List String × RunOut :=
  let notes := notesOpt.getD []
  match collectInvalid notes with
  | Option.none => ([], RunOut.crash)
  | some invalid =>
      if !invalid.isEmpty then
        ([], RunOut.out (errOut ("Invalid notes at indices: " ++ renderNatList invalid ++
          ". Each needs Front and Back.")))
      else if (pyStrip deck).data = [] then
        ([], RunOut.out (errOut "deck_name is required"))
      else
        let deckErr := ensure_deck svc url deck
        if optStrTruthy deckErr then
          (["createDeck"], RunOut.out (errOut ("Failed to ensure deck: " ++ deckErr.getD "")))
        else
          let mf := ensure_model_fields svc url modelName
          if !mf.1 then
            (["createDeck", "modelFieldNames"], RunOut.out (errOutOpt mf.2))
          else
            let prepared := prepareNotes deck modelName notes
            let rr := request svc url "addNotes" (PyVal.dict [("notes", PyVal.list prepared)])
            if optStrTruthy rr.2 then
              (["createDeck", "modelFieldNames", "addNotes"],
               RunOut.out (errOut (rr.2.getD "")))
            else
              (["createDeck", "modelFieldNames", "addNotes"],
               RunOut.out (PyVal.dict [("result", rr.1.getD PyVal.none)]))

end AnkiConnectAddNotesTool

/-! ## Part 3: snapshot store (main.py `_save_flashcards_to_file`, lines
25-35, and the snapshot-reading half of `upload_only`, lines 129-143).
The Python stdlib serialization (`json.dump` / `json.load`) is the
external boundary: the file is modelled by the JSON document it holds
(`none` when the file is absent). -/

/-- `_save_flashcards_to_file`: the document written is
`\x7b"flashcards": flashcards\x7d` (line 35). -/
def save_flashcards_to_file (flashcards : List PyVal) : PyVal :=
  PyVal.dict [("flashcards", PyVal.list flashcards)]

/-- How loading the snapshot fails in `upload_only`: `FileNotFoundError`
(printed as "flashcards.json not found...", line 139) versus any other
exception (printed as "Failed to read flashcards.json: ...", line 142),
which covers the `ValueError` raised when the `"flashcards"` key is
missing or not a list, and the `AttributeError`/decode errors for a
malformed document. -/
inductive LoadError where
  | notFound
  | formatError (msg : String)

/-- The snapshot-loading logic of `upload_only` (lines 133-137):
`data.get("flashcards")` followed by `isinstance(notes, list)`. -/
def load_flashcards (file : Option PyVal) : Except LoadError (List PyVal) :=
  match file with
  | Option.none => Except.error LoadError.notFound
  | some (PyVal.dict kvs) =>
      match List.lookup "flashcards" kvs with
      | some (PyVal.list xs) => Except.ok xs
      | _ => Except.error (LoadError.formatError
          "Invalid flashcards.json format: \x27flashcards\x27 must be a list.")
  | some _ => Except.error (LoadError.formatError
      "top-level JSON value has no attribute get")

/-! ## Part 4: the review workflow (main.py `AnkiFlow`, lines 152-204).

The workflow handles card records opaquely (it only ever stores the
generated list, persists it, and checks it for emptiness before upload),
so the card type is a parameter `α`.  The external generator is
abstracted as `gens : Nat → List α`, the card set returned by the k-th
generation; the reviewer as the scripted list of raw answers.  A session
is modelled as the trace of observable events, each paired with the
`AnkiState` in force after it. -/

/-- `AnkiState` (main.py lines 14-17), with its field defaults. -/
structure AnkiState (α : Type) where
  deck_name : Option String := Option.none
  flashcards : Option (List α) := Option.none
  approved : Bool := false

/-- Observable workflow events: the deck name being stored, a generation
result being assigned to the state, the snapshot save, the review
prompt (with the reviewer's raw answer), the corrective message for an
unrecognized answer, approval, the empty-set diagnostic, and the
hand-off of the card set to the upload path. -/
inductive FlowEv (α : Type) where
  | setDeck (d : String)
  | gen (cards : List α)
  | save (cards : List α)
  | prompt (ans : String)
  | wrongAnswer
  | approve
  | noCards
  | upload (cards : List α)

/-- `send_to_anki` (lines 192-204): nothing without approval; the
"No flashcards to upload" diagnostic when the stored set is `None` or
empty (`not self.state.flashcards or len(...) == 0`); otherwise the
card set is handed to the upload path. -/
def send_to_anki {α : Type} (st : AnkiState α) : List (FlowEv α × AnkiState α) :=
  if st.approved = false then []
  else
    match st.flashcards with
    | Option.none => [(FlowEv.noCards, st)]
    | some [] => [(FlowEv.noCards, st)]
    | some cards => [(FlowEv.upload cards, st)]

/-- The review loop of `generate_and_review` (lines 177-188) driven by
scripted answers, entered right after the `g`-th generation.  Each
answer is read, stripped and lowercased; `"y"` sets `approved` and
leaves both loops (after which the flow runs `send_to_anki`); `"n"`
breaks to the outer loop, which regenerates, stores and saves the new
set before prompting again; anything else prints the corrective message
and re-prompts without another generation.  An exhausted script is a
session still blocked on `input()`. -/
def reviewLoop {α : Type} (gens : Nat → List α) (g : Nat) (st : AnkiState α) :
    List String → List (FlowEv α × AnkiState α)
  | [] => []
  | ans :: rest =>
      let t := pyLower (pyStrip ans)
      if t = "y" then
        let st2 := { st with approved := true }
        (FlowEv.prompt ans, st) :: (FlowEv.approve, st2) :: send_to_anki st2
      else if t = "n" then
        let c := gens (g + 1)
        let st2 := { st with flashcards := some c }
        (FlowEv.prompt ans, st) :: (FlowEv.gen c, st2) :: (FlowEv.save c, st2) ::
          reviewLoop gens (g + 1) st2 rest
      else
        (FlowEv.prompt ans, st) :: (FlowEv.wrongAnswer, st) :: reviewLoop gens g st rest

/-- One whole session: `deck_name_input` (line 163-166) stores the deck
name, then `generate_and_review` (lines 168-188) generates, stores and
saves the first card set and enters the review loop. -/
def sessionTrace {α : Type} (d : String) (gens : Nat → List α)
    (answers : List String) : List (FlowEv α × AnkiState α) :=
  let st1 : AnkiState α := { deck_name := some d }
  let c := gens 0
  let st2 := { st1 with flashcards := some c }
  (FlowEv.setDeck d, st1) :: (FlowEv.gen c, st2) :: (FlowEv.save c, st2) ::
    reviewLoop gens 0 st2 answers

/-- Number of generation cycles in a trace. -/
def countGen {α : Type} (tr : List (FlowEv α × AnkiState α)) : Nat :=
  tr.countP fun p => match p.1 with | FlowEv.gen _ => true | _ => false

/-- Number of times a card set is handed to the upload path. -/
def countUpload {α : Type} (tr : List (FlowEv α × AnkiState α)) : Nat :=
  tr.countP fun p => match p.1 with | FlowEv.upload _ => true | _ => false

/-- Number of approval events. -/
def countApprove {α : Type} (tr : List (FlowEv α × AnkiState α)) : Nat :=
  tr.countP fun p => match p.1 with | FlowEv.approve => true | _ => false

/-- Checks the `approved` flag along a trace, given its value before the
trace: once true it stays true, and a false-to-true flip happens exactly
at an `approve` event (reviewer acceptance). -/
def approvedOk {α : Type} : Bool → List (FlowEv α × AnkiState α) → Bool
  | _, [] => true
  | prev, (e, s) :: rest =>
      (if prev then s.approved
       else match e with
            | FlowEv.approve => s.approved
            | _ => !s.approved) && approvedOk s.approved rest

/-- Checks that every state in the trace carries the deck name `d`. -/
def deckOk {α : Type} (d : String) : List (FlowEv α × AnkiState α) → Bool
  | [] => true
  | (_, s) :: rest => (s.deck_name == some d) && deckOk d rest

/-- Checks generation/persistence discipline along a trace.  `last` is
the most recently generated card set and `saved` whether it has been
persisted: a `gen c` event must install exactly `c` in the state, a
`save` event must persist exactly the last generated set, and every
review prompt must happen with a generated set that is both installed
in the state and already saved. -/
def genSaveOk {α : Type} [DecidableEq α] :
    Option (List α) → Bool → List (FlowEv α × AnkiState α) → Bool
  | _, _, [] => true
  | last, saved, (e, s) :: rest =>
      match e with
      | FlowEv.gen c => decide (s.flashcards = some c) && genSaveOk (some c) false rest
      | FlowEv.save c => decide (last = some c) && genSaveOk last true rest
      | FlowEv.prompt _ =>
          (match last with
           | some c => saved && decide (s.flashcards = some c)
           | Option.none => false) && genSaveOk last saved rest
      | _ => genSaveOk last saved rest

/-! ## Concrete service oracles used to instantiate theorems -/

/-- A healthy service: `modelFieldNames` reports `["Front", "Back"]`,
every other action succeeds with a null result. -/
def svcHealthy : Svc := fun action _ =>
  if action = "modelFieldNames" then
    SvcOutcome.response [("result", PyVal.list [PyVal.str "Front", PyVal.str "Back"]),
                         ("error", PyVal.none)]
  else SvcOutcome.response [("result", PyVal.none), ("error", PyVal.none)]

/-- A service whose every call ends in `requests.exceptions.ConnectionError`. -/
def svcDown (e : String) : Svc := fun _ _ => SvcOutcome.connError e

/-- A service that answers every action with a protocol-level error. -/
def svcProtoErr (msg : String) : Svc := fun _ _ =>
  SvcOutcome.response [("result", PyVal.none), ("error", PyVal.str msg)]

/-- A service whose `modelFieldNames` result is the empty list. -/
def svcEmptyFields : Svc := fun _ _ =>
  SvcOutcome.response [("result", PyVal.list []), ("error", PyVal.none)]

/-! ## Helper lemmas -/

theorem listStarts_self_append [BEq α] [LawfulBEq α] (xs ys : List α) :
    listStarts xs (xs ++ ys) = true := by
  induction xs with
  | nil => rfl
  | cons a as ih => simp [listStarts, ih]

theorem listHasSub_append_left [BEq α] (xs pre rest : List α)
    (h : listHasSub xs rest = true) : listHasSub xs (pre ++ rest) = true := by
  induction pre with
  | nil => simpa using h
  | cons b bs ih => simp [listHasSub, ih]

theorem listHasSub_self_append [BEq α] [LawfulBEq α] (xs ys : List α) :
    listHasSub xs (xs ++ ys) = true := by
  cases xs with
  | nil => cases ys <;> simp [listHasSub, listStarts]
  | cons a as => simp [listHasSub, listStarts, listStarts_self_append]

/-! ## Claims -/

open AnkiConnectAddNotesTool

/-- C1: the claim says a batch containing a record that lacks `Front` or
`Back` — under either the flat front/back shape or the nested fields-map
shape — fails validation with every invalid index reported.  The code
cannot flag a flat-shape record: the synthesized field map
`\x7b"Front": n.get("Front"), "Back": n.get("Back")\x7d` always contains
both keys (with `None` values when the flat keys are absent).  This
theorem evaluates the code at the failing input: the flat record
`\x7b"Back": "x"\x7d` (no `Front`) is classified valid, the batch passes
validation and is submitted via `addNotes` against a healthy service
(with `Front` silently defaulted to the empty string by the preparation
loop); an explicit empty `fields` map is likewise accepted because the
falsy dict selects the fallback.  Only a non-empty nested `fields` map
lacking a key is ever flagged. -/
theorem C1_flat_record_missing_front_is_submitted :
    noteInvalid [("Back", PyVal.str "x")] = some false ∧
    collectInvalid [[("Back", PyVal.str "x")]] = some [] ∧
    (run svcHealthy "Biology" "Basic" (some [[("Back", PyVal.str "x")]])
        "http://127.0.0.1:8765").1 = ["createDeck", "modelFieldNames", "addNotes"] ∧
    noteInvalid [("fields", PyVal.dict [])] = some false ∧
    noteInvalid [("fields", PyVal.dict [("Front", PyVal.str "x")])] = some true ∧
    collectInvalid [[("fields", PyVal.dict [("Front", PyVal.str "x")])],
                    [("Front", PyVal.str "q"), ("Back", PyVal.str "a")],
                    [("fields", PyVal.dict [("Back", PyVal.str "x")])]] = some [0, 2] :=
  ⟨rfl, rfl, rfl, rfl, rfl, rfl⟩

/-- C4 counterexample: the claim says a non-null service `error` field
makes the request helper fail with the message prefixed by the failing
action name.  At the concrete response `\x7b"result": None, "error":
"boom"\x7d` for `createDeck`, the helper surfaces exactly `"boom"` and
the tool output is `"Failed to ensure deck: boom"`; the action name
`createDeck` occurs in neither.  Moreover a non-null but empty-string
error field is treated as success (truthiness, not a null test). -/
theorem C4_counterexample_no_action_prefix :
    (request (svcProtoErr "boom") "http://127.0.0.1:8765" "createDeck"
        (PyVal.dict [("deck", PyVal.str "Biology")])).2 = some "boom" ∧
    listHasSub "createDeck".data "boom".data = false ∧
    run (svcProtoErr "boom") "Biology" "Basic" (some []) "http://127.0.0.1:8765"
      = (["createDeck"], RunOut.out (errOut "Failed to ensure deck: boom")) ∧
    listHasSub "createDeck".data "Failed to ensure deck: boom".data = false ∧
    request (fun _ _ => SvcOutcome.response [("result", PyVal.str "ok"), ("error", PyVal.str "")])
        "u" "addNotes" PyVal.none = (some (PyVal.str "ok"), Option.none) :=
  ⟨rfl, by decide, rfl, by decide, rfl⟩

/-- C4 as amended: whenever the service responds with a truthy
(non-empty) `error` value for any action, the request helper fails and
the service's error message is surfaced verbatim (`str(error)`, so a
string error is passed through unchanged), with no action-name prefix
added. -/
theorem C4_amended_error_surfaced_verbatim (svc : Svc) (url action : String)
    (params : PyVal) (body : PyDict) (e : PyVal)
    (hsvc : svc action params = SvcOutcome.response body)
    (he : List.lookup "error" body = some e) (ht : e.truthy = true) :
    request svc url action params = (Option.none, some (pyStr e)) ∧
    (∀ s, e = PyVal.str s → request svc url action params = (Option.none, some s)) := by
  constructor
  · simp [request, hsvc, he, ht]
  · intro s hs
    subst hs
    simp [request, hsvc, he, ht, pyStr]

/-- C4 witness: the amended statement instantiated at a concrete
protocol-level error. -/
theorem C4_amended_witness :
    request (svcProtoErr "cannot create deck") "http://127.0.0.1:8765" "addNotes" PyVal.none
      = (Option.none, some "cannot create deck") :=
  (C4_amended_error_surfaced_verbatim (svcProtoErr "cannot create deck")
    "http://127.0.0.1:8765" "addNotes" PyVal.none
    [("result", PyVal.none), ("error", PyVal.str "cannot create deck")]
    (PyVal.str "cannot create deck") rfl rfl rfl).2 "cannot create deck" rfl

/-- C6: with approval granted but an empty (or absent) card set,
`send_to_anki` terminates after the "No flashcards to upload"
diagnostic, treats this as a no-op rather than an error, and hands
nothing to the upload path (zero service calls). -/
theorem C6_approved_empty_set_is_noop {α : Type} (st : AnkiState α)
    (happ : st.approved = true)
    (hempty : st.flashcards = Option.none ∨ st.flashcards = some []) :
    send_to_anki st = [(FlowEv.noCards, st)] ∧
    countUpload (send_to_anki st) = 0 := by
  have h1 : send_to_anki st = [(FlowEv.noCards, st)] := by
    rcases hempty with h | h <;> simp [send_to_anki, happ, h]
  exact ⟨h1, by simp [h1, countUpload]⟩

/-- C6 witness: the empty approved set, concretely. -/
theorem C6_witness :
    send_to_anki (α := Nat) { deck_name := some "Biology", flashcards := some [], approved := true }
      = [(FlowEv.noCards, { deck_name := some "Biology", flashcards := some [], approved := true })] ∧
    countUpload (send_to_anki (α := Nat)
      { deck_name := some "Biology", flashcards := some [], approved := true }) = 0 :=
  C6_approved_empty_set_is_noop _ rfl (Or.inr rfl)

/-- C10: a successful `modelFieldNames` call returning the empty list is
classified as "Invalid response for model field names" (Python's
`not result` is true for `[]`), exactly like a non-list result, and not
as the missing-required-fields error. -/
theorem C10_empty_field_list_is_invalid_response (svc : Svc) (url modelName : String)
    (h : svc "modelFieldNames" (PyVal.dict [("modelName", PyVal.str modelName)]) =
         SvcOutcome.response [("result", PyVal.list []), ("error", PyVal.none)]) :
    ensure_model_fields svc url modelName
      = (false, some "Invalid response for model field names") ∧
    (∀ (svc2 : Svc) (b : PyVal), b.isList = false →
        svc2 "modelFieldNames" (PyVal.dict [("modelName", PyVal.str modelName)]) =
          SvcOutcome.response [("result", b), ("error", PyVal.none)] →
        ensure_model_fields svc2 url modelName
          = (false, some "Invalid response for model field names")) ∧
    "Invalid response for model field names" ≠ missingFieldsMsg modelName := by
  refine ⟨?_, ?_, ?_⟩
  · unfold ensure_model_fields request
    rw [h]
    rfl
  · intro svc2 b hb h2
    unfold ensure_model_fields request
    rw [h2]
    cases b with
    | list xs => simp [PyVal.isList] at hb
    | none => rfl
    | bool b => rfl
    | int n => rfl
    | str s => rfl
    | dict kvs => rfl
  · intro hEq
    have hT : listStarts "I".data ("Invalid response for model field names").data = true := rfl
    rw [hEq] at hT
    have hF : listStarts "I".data (missingFieldsMsg modelName).data = false := rfl
    rw [hF] at hT
    exact Bool.noConfusion hT

/-- C10 witness: the empty-field-list response, concretely. -/
theorem C10_witness :
    ensure_model_fields svcEmptyFields "http://127.0.0.1:8765" "Basic"
      = (false, some "Invalid response for model field names") :=
  (C10_empty_field_list_is_invalid_response svcEmptyFields "http://127.0.0.1:8765" "Basic" rfl).1

/-- C8: saving a card list and loading it back through the upload-only
path yields a deep-equal list (for every card list, so in particular for
cards with empty tag lists and unicode text); loading fails with
`NotFoundError` when the file is absent, and with a format error when
the top-level `"flashcards"` key is missing or its value is not a list. -/
theorem C8_snapshot_roundtrip :
    (∀ cards : List PyVal,
        load_flashcards (some (save_flashcards_to_file cards)) = Except.ok cards) ∧
    load_flashcards Option.none = Except.error LoadError.notFound ∧
    (∀ kvs : PyDict, List.lookup "flashcards" kvs = Option.none →
        ∃ m, load_flashcards (some (PyVal.dict kvs)) = Except.error (LoadError.formatError m)) ∧
    (∀ (kvs : PyDict) (v : PyVal), List.lookup "flashcards" kvs = some v →
        v.isList = false →
        ∃ m, load_flashcards (some (PyVal.dict kvs)) = Except.error (LoadError.formatError m)) := by
  refine ⟨fun cards => rfl, rfl, ?_, ?_⟩
  · intro kvs hk
    refine ⟨"Invalid flashcards.json format: \x27flashcards\x27 must be a list.", ?_⟩
    simp only [load_flashcards]
    rw [hk]
  · intro kvs v hk hv
    refine ⟨"Invalid flashcards.json format: \x27flashcards\x27 must be a list.", ?_⟩
    simp only [load_flashcards]
    rw [hk]
    cases v with
    | list xs => simp [PyVal.isList] at hv
    | none => rfl
    | bool b => rfl
    | int n => rfl
    | str s => rfl
    | dict kvs2 => rfl

/-- C8 witness: a unicode card with an empty tag list round-trips; a
document without the `"flashcards"` key and one whose value is a string
both fail with a format error. -/
theorem C8_witness :
    load_flashcards (some (save_flashcards_to_file
        [PyVal.dict [("front", PyVal.str "Was ist Mitose? 有丝分裂 λ"),
                     ("back", PyVal.str "Zellteilung ✓"), ("tags", PyVal.list [])]]))
      = Except.ok
        [PyVal.dict [("front", PyVal.str "Was ist Mitose? 有丝分裂 λ"),
                     ("back", PyVal.str "Zellteilung ✓"), ("tags", PyVal.list [])]] ∧
    (∃ m, load_flashcards (some (PyVal.dict [("cards", PyVal.list [])]))
        = Except.error (LoadError.formatError m)) ∧
    (∃ m, load_flashcards (some (PyVal.dict [("flashcards", PyVal.str "x")]))
        = Except.error (LoadError.formatError m)) :=
  ⟨C8_snapshot_roundtrip.1 _,
   C8_snapshot_roundtrip.2.2.1 _ rfl,
   C8_snapshot_roundtrip.2.2.2 _ _ rfl rfl⟩

/-- Helper: a batch whose every record passes the per-record test
collects no invalid indices, whatever the starting index. -/
theorem collectInvalidAux_all_valid (notes : List PyDict)
    (h : ∀ n ∈ notes, noteInvalid n = some false) :
    ∀ i, collectInvalidAux i notes = some [] := by
  induction notes with
  | nil => intro i; rfl
  | cons n rest ih =>
      intro i
      have hn : noteInvalid n = some false := h n (List.mem_cons_self n rest)
      have hr := ih (fun m hm => h m (List.mem_cons_of_mem n hm)) (i + 1)
      simp [collectInvalidAux, hn, hr]

/-- C3: when every record has both `Front` and `Back` in its effective
field map (the per-record test of line 108 accepts it), validation
collects no invalid index, and the preparation loop produces exactly one
prepared note per input record, in input order, each carrying the deck
name, the model name, an options block with `allowDuplicate := false`,
and the record's tag list (defaulting to the empty list). -/
theorem C3_valid_batch_normalizes (deck modelName : String) (notes : List PyDict)
    (h : ∀ n ∈ notes, noteInvalid n = some false) :
    collectInvalid notes = some [] ∧
    (prepareNotes deck modelName notes).length = notes.length ∧
    (∀ i : Nat, (prepareNotes deck modelName notes)[i]? =
        (notes[i]?).map (prepareNote deck modelName)) ∧
    (∀ (i : Nat) (n : PyDict), notes[i]? = some n →
        (prepareNotes deck modelName notes)[i]? = some (PyVal.dict
          [("deckName", PyVal.str deck),
           ("modelName", PyVal.str modelName),
           ("fields", preparationFields n),
           ("options", PyVal.dict [("allowDuplicate", PyVal.bool false)]),
           ("tags", (dget n "tags").getD (PyVal.list []))])) := by
  refine ⟨collectInvalidAux_all_valid notes h 0, by simp [prepareNotes], ?_, ?_⟩
  · intro i
    simp [prepareNotes]
  · intro i n hn
    simp [prepareNotes, hn, prepareNote]

/-- C3 witness: the Biology scenario of the spec, with capital-key flat
fields as the tool reads them. -/
theorem C3_witness :
    collectInvalid [[("Front", PyVal.str "Mitosis"),
                     ("Back", PyVal.str "Cell division producing two identical cells"),
                     ("tags", PyVal.list [PyVal.str "bio"])]] = some [] ∧
    (prepareNotes "Biology" "Basic"
        [[("Front", PyVal.str "Mitosis"),
          ("Back", PyVal.str "Cell division producing two identical cells"),
          ("tags", PyVal.list [PyVal.str "bio"])]])[0]? = some (PyVal.dict
      [("deckName", PyVal.str "Biology"),
       ("modelName", PyVal.str "Basic"),
       ("fields", preparationFields
          [("Front", PyVal.str "Mitosis"),
           ("Back", PyVal.str "Cell division producing two identical cells"),
           ("tags", PyVal.list [PyVal.str "bio"])]),
       ("options", PyVal.dict [("allowDuplicate", PyVal.bool false)]),
       ("tags", PyVal.list [PyVal.str "bio"])]) := by
  have hvalid : ∀ n ∈ [[("Front", PyVal.str "Mitosis"),
      ("Back", PyVal.str "Cell division producing two identical cells"),
      ("tags", PyVal.list [PyVal.str "bio"])]], noteInvalid n = some false := by
    intro n hn
    rw [List.mem_singleton] at hn
    rw [hn]
    rfl
  have hmain := C3_valid_batch_normalizes "Biology" "Basic" _ hvalid
  exact ⟨hmain.1, hmain.2.2.2 0 _ rfl⟩

/-- Helper: which service actions `_run` issues, by stage.  The trace is
empty (validation or deck-name failure, or a crash), exactly
`["createDeck"]` (deck creation failed truthily), exactly
`["createDeck", "modelFieldNames"]` (schema validation failed), or all
three actions with schema validation succeeded. -/
theorem run_trace_cases (svc : Svc) (deck modelName : String)
    (notesOpt : Option (List PyDict)) (url : String) :
    (run svc deck modelName notesOpt url).1 = [] ∨
    ((run svc deck modelName notesOpt url).1 = ["createDeck"] ∧
      optStrTruthy (ensure_deck svc url deck) = true) ∨
    ((run svc deck modelName notesOpt url).1 = ["createDeck", "modelFieldNames"] ∧
      optStrTruthy (ensure_deck svc url deck) = false ∧
      (ensure_model_fields svc url modelName).1 = false) ∨
    ((run svc deck modelName notesOpt url).1 = ["createDeck", "modelFieldNames", "addNotes"] ∧
      optStrTruthy (ensure_deck svc url deck) = false ∧
      (ensure_model_fields svc url modelName).1 = true) := by
  unfold run
  cases hci : collectInvalid (notesOpt.getD []) with
  | none => exact Or.inl (by simp [hci])
  | some invalid =>
      by_cases hinv : invalid.isEmpty = true
      case neg =>
        simp only [Bool.not_eq_true] at hinv
        exact Or.inl (by simp [hci, hinv])
      case pos =>
        by_cases hdk : (pyStrip deck).data = []
        case pos => exact Or.inl (by simp [hci, hinv, hdk])
        case neg =>
          by_cases hde : optStrTruthy (ensure_deck svc url deck) = true
          case pos =>
            exact Or.inr (Or.inl ⟨by simp [hci, hinv, hdk, hde], hde⟩)
          case neg =>
            simp only [Bool.not_eq_true] at hde
            by_cases hmf : (ensure_model_fields svc url modelName).1 = true
            case pos =>
              refine Or.inr (Or.inr (Or.inr ⟨?_, hde, hmf⟩))
              by_cases hrr : optStrTruthy (request svc url "addNotes"
                  (PyVal.dict [("notes",
                    PyVal.list (prepareNotes deck modelName (notesOpt.getD [])))])).2 = true <;>
                simp [hci, hinv, hdk, hde, hmf, hrr]
            case neg =>
              simp only [Bool.not_eq_true] at hmf
              refine Or.inr (Or.inr (Or.inl ⟨?_, hde, hmf⟩))
              simp [hci, hinv, hdk, hde, hmf]

/-- C2: in every run of the upload tool, schema validation
(`modelFieldNames`) happens before the `addNotes` request: if it fails,
no `addNotes` request is ever issued; conversely, whenever `addNotes`
is issued the trace is exactly createDeck, then modelFieldNames, then
addNotes, with schema validation having succeeded. -/
theorem C2_schema_validated_before_addNotes (svc : Svc) (deck modelName : String)
    (notesOpt : Option (List PyDict)) (url : String) :
    ((ensure_model_fields svc url modelName).1 = false →
        "addNotes" ∉ (run svc deck modelName notesOpt url).1) ∧
    ("addNotes" ∈ (run svc deck modelName notesOpt url).1 →
        (run svc deck modelName notesOpt url).1 =
          ["createDeck", "modelFieldNames", "addNotes"] ∧
        (ensure_model_fields svc url modelName).1 = true) := by
  rcases run_trace_cases svc deck modelName notesOpt url with
    h | ⟨h, _⟩ | ⟨h, _, hmf⟩ | ⟨h, _, hmf⟩
  · rw [h]; exact ⟨fun _ => by simp, fun hm => absurd hm (by simp)⟩
  · rw [h]; exact ⟨fun _ => by simp, fun hm => absurd hm (by simp)⟩
  · rw [h]; exact ⟨fun _ => by simp, fun hm => absurd hm (by simp)⟩
  · rw [h]
    refine ⟨fun hf => absurd hmf (by simp [hf]), fun _ => ⟨rfl, hmf⟩⟩

/-- C2 witness: a service whose field list is empty fails schema
validation, and the run issues no `addNotes` request. -/
theorem C2_witness :
    (ensure_model_fields svcEmptyFields "http://127.0.0.1:8765" "Basic").1 = false ∧
    "addNotes" ∉ (run svcEmptyFields "Biology" "Basic"
        (some [[("Front", PyVal.str "q"), ("Back", PyVal.str "a")]])
        "http://127.0.0.1:8765").1 :=
  ⟨rfl, (C2_schema_validated_before_addNotes svcEmptyFields "Biology" "Basic"
      (some [[("Front", PyVal.str "q"), ("Back", PyVal.str "a")]])
      "http://127.0.0.1:8765").1 rfl⟩

/-- C5: a connection failure on any action produces the connection
message, which names the attempted endpoint URL and suggests enabling
the add-on; a timeout produces the distinct timeout message (the two
messages are never equal); and when `createDeck` fails with a
connection error, the run never proceeds to `modelFieldNames` or
`addNotes`. -/
theorem C5_connection_failure_actionable (url e : String) :
    listHasSub url.data (connMsg url e).data = true ∧
    listHasSub "Make sure Anki is running with AnkiConnect add-on enabled".data
      (connMsg url e).data = true ∧
    (∀ url2 e2, connMsg url e ≠ timeoutMsg url2 e2) ∧
    (∀ (svc : Svc) (action : String) (params : PyVal),
        svc action params = SvcOutcome.connError e →
        request svc url action params = (Option.none, some (connMsg url e))) ∧
    (∀ (svc : Svc) (action : String) (params : PyVal) (e2 : String),
        svc action params = SvcOutcome.timeout e2 →
        request svc url action params = (Option.none, some (timeoutMsg url e2))) ∧
    (∀ (svc : Svc) (deck modelName : String) (notesOpt : Option (List PyDict)),
        svc "createDeck" (PyVal.dict [("deck", PyVal.str deck)]) = SvcOutcome.connError e →
        "addNotes" ∉ (run svc deck modelName notesOpt url).1 ∧
        "modelFieldNames" ∉ (run svc deck modelName notesOpt url).1) := by
  refine ⟨?_, ?_, ?_, ?_, ?_, ?_⟩
  · simp only [connMsg, String.data_append]
    exact listHasSub_append_left _ _ _ (listHasSub_self_append _ _)
  · have hmid : (". Make sure Anki is running with AnkiConnect add-on enabled. Original error: "
        : String) = ". " ++ ("Make sure Anki is running with AnkiConnect add-on enabled" ++
          ". Original error: ") := rfl
    simp only [connMsg, hmid, String.data_append, List.append_assoc]
    apply listHasSub_append_left
    apply listHasSub_append_left
    apply listHasSub_append_left
    rw [← List.append_assoc]
    exact listHasSub_self_append _ _
  · intro url2 e2 hEq
    have hT : listStarts "F".data (connMsg url e).data = true := rfl
    rw [hEq] at hT
    have hF : listStarts "F".data (timeoutMsg url2 e2).data = false := rfl
    rw [hF] at hT
    exact Bool.noConfusion hT
  · intro svc action params hsvc
    unfold request
    rw [hsvc]
  · intro svc action params e2 hsvc
    unfold request
    rw [hsvc]
  · intro svc deck modelName notesOpt hsvc
    have hde : optStrTruthy (ensure_deck svc url deck) = true := by
      unfold ensure_deck request
      rw [hsvc]
      rfl
    rcases run_trace_cases svc deck modelName notesOpt url with
      h | ⟨h, _⟩ | ⟨h, hde2, _⟩ | ⟨h, hde2, _⟩
    · rw [h]; exact ⟨by simp, by simp⟩
    · rw [h]; exact ⟨by simp, by simp⟩
    · rw [hde] at hde2; exact Bool.noConfusion hde2
    · rw [hde] at hde2; exact Bool.noConfusion hde2

/-- C5 witness: an unreachable service (connection refused) at the
default endpoint; the `createDeck` call surfaces the connection message
naming the endpoint, and the run never reaches `addNotes`. -/
theorem C5_witness :
    listHasSub "http://127.0.0.1:8765".data
      (connMsg "http://127.0.0.1:8765" "connection refused").data = true ∧
    request (svcDown "connection refused") "http://127.0.0.1:8765" "createDeck"
        (PyVal.dict [("deck", PyVal.str "Biology")])
      = (Option.none, some (connMsg "http://127.0.0.1:8765" "connection refused")) ∧
    "addNotes" ∉ (run (svcDown "connection refused") "Biology" "Basic"
        (some [[("Front", PyVal.str "q"), ("Back", PyVal.str "a")]])
        "http://127.0.0.1:8765").1 :=
  ⟨(C5_connection_failure_actionable "http://127.0.0.1:8765" "connection refused").1,
   (C5_connection_failure_actionable "http://127.0.0.1:8765" "connection refused").2.2.2.1
     _ _ _ rfl,
   ((C5_connection_failure_actionable "http://127.0.0.1:8765" "connection refused").2.2.2.2.2
     _ "Biology" "Basic" (some [[("Front", PyVal.str "q"), ("Back", PyVal.str "a")]]) rfl).1⟩

/-- Helper: an approved non-empty card set is handed to the upload path. -/
theorem send_to_anki_nonempty {α : Type} (st : AnkiState α) (c : α) (cs : List α)
    (happ : st.approved = true) (hf : st.flashcards = some (c :: cs)) :
    send_to_anki st = [(FlowEv.upload (c :: cs), st)] := by
  simp [send_to_anki, happ, hf]

/-- Helper: an answer that is neither accept nor reject (after strip and
lowercase) produces the corrective message and re-prompts with the same
state, the same generation counter and no new events. -/
theorem reviewLoop_wrong_answer {α : Type} (gens : Nat → List α) (g : Nat)
    (st : AnkiState α) (a : String) (rest : List String)
    (h1 : pyLower (pyStrip a) ≠ "y") (h2 : pyLower (pyStrip a) ≠ "n") :
    reviewLoop gens g st (a :: rest) =
      (FlowEv.prompt a, st) :: (FlowEv.wrongAnswer, st) :: reviewLoop gens g st rest := by
  simp [reviewLoop, h1, h2]

/-- C7: with scripted reviewer answers `["n", "n", "y"]` the workflow
generates exactly three times, approves exactly once, and hands a card
set to the upload path exactly once; the tokens are matched
case-insensitively with surrounding whitespace stripped (so
`["N", " n ", "Y"]` behaves identically); and any other answer
re-prompts with a corrective message without another generation cycle. -/
theorem C7_review_loop_counts {α : Type} (d : String) (gens : Nat → List α)
    (h : gens 2 ≠ []) :
    countGen (sessionTrace d gens ["n", "n", "y"]) = 3 ∧
    countApprove (sessionTrace d gens ["n", "n", "y"]) = 1 ∧
    countUpload (sessionTrace d gens ["n", "n", "y"]) = 1 ∧
    countGen (sessionTrace d gens ["N", " n ", "Y"]) = 3 ∧
    countUpload (sessionTrace d gens ["N", " n ", "Y"]) = 1 ∧
    (∀ (g : Nat) (st : AnkiState α) (a : String) (rest : List String),
        pyLower (pyStrip a) ≠ "y" → pyLower (pyStrip a) ≠ "n" →
        reviewLoop gens g st (a :: rest) =
          (FlowEv.prompt a, st) :: (FlowEv.wrongAnswer, st) :: reviewLoop gens g st rest) := by
  have e1 : sessionTrace d gens ["n", "n", "y"] =
      (FlowEv.setDeck d, { deck_name := some d }) ::
      (FlowEv.gen (gens 0), { deck_name := some d, flashcards := some (gens 0) }) ::
      (FlowEv.save (gens 0), { deck_name := some d, flashcards := some (gens 0) }) ::
      (FlowEv.prompt "n", { deck_name := some d, flashcards := some (gens 0) }) ::
      (FlowEv.gen (gens 1), { deck_name := some d, flashcards := some (gens 1) }) ::
      (FlowEv.save (gens 1), { deck_name := some d, flashcards := some (gens 1) }) ::
      (FlowEv.prompt "n", { deck_name := some d, flashcards := some (gens 1) }) ::
      (FlowEv.gen (gens 2), { deck_name := some d, flashcards := some (gens 2) }) ::
      (FlowEv.save (gens 2), { deck_name := some d, flashcards := some (gens 2) }) ::
      (FlowEv.prompt "y", { deck_name := some d, flashcards := some (gens 2) }) ::
      (FlowEv.approve, { deck_name := some d, flashcards := some (gens 2), approved := true }) ::
      send_to_anki { deck_name := some d, flashcards := some (gens 2), approved := true } := rfl
  have e2 : sessionTrace d gens ["N", " n ", "Y"] =
      (FlowEv.setDeck d, { deck_name := some d }) ::
      (FlowEv.gen (gens 0), { deck_name := some d, flashcards := some (gens 0) }) ::
      (FlowEv.save (gens 0), { deck_name := some d, flashcards := some (gens 0) }) ::
      (FlowEv.prompt "N", { deck_name := some d, flashcards := some (gens 0) }) ::
      (FlowEv.gen (gens 1), { deck_name := some d, flashcards := some (gens 1) }) ::
      (FlowEv.save (gens 1), { deck_name := some d, flashcards := some (gens 1) }) ::
      (FlowEv.prompt " n ", { deck_name := some d, flashcards := some (gens 1) }) ::
      (FlowEv.gen (gens 2), { deck_name := some d, flashcards := some (gens 2) }) ::
      (FlowEv.save (gens 2), { deck_name := some d, flashcards := some (gens 2) }) ::
      (FlowEv.prompt "Y", { deck_name := some d, flashcards := some (gens 2) }) ::
      (FlowEv.approve, { deck_name := some d, flashcards := some (gens 2), approved := true }) ::
      send_to_anki { deck_name := some d, flashcards := some (gens 2), approved := true } := rfl
  rcases hg : gens 2 with _ | ⟨c, cs⟩
  · exact absurd hg h
  · have hs : send_to_anki
        { deck_name := some d, flashcards := some (gens 2), approved := true } =
        [(FlowEv.upload (gens 2),
          ({ deck_name := some d, flashcards := some (gens 2), approved := true } :
            AnkiState α))] := by
      rw [hg]
      exact send_to_anki_nonempty _ c cs rfl rfl
    rw [e1, e2, hs]
    exact ⟨rfl, rfl, rfl, rfl, rfl,
      fun g st a rest h1 h2 => reviewLoop_wrong_answer gens g st a rest h1 h2⟩

/-- C7 witness: a concrete generator producing one card per cycle. -/
theorem C7_witness :
    countGen (sessionTrace "Biology" (fun k => [k]) ["n", "n", "y"]) = 3 ∧
    countApprove (sessionTrace "Biology" (fun k => [k]) ["n", "n", "y"]) = 1 ∧
    countUpload (sessionTrace "Biology" (fun k => [k]) ["n", "n", "y"]) = 1 :=
  ⟨(C7_review_loop_counts "Biology" (fun k => [k]) (by simp)).1,
   (C7_review_loop_counts "Biology" (fun k => [k]) (by simp)).2.1,
   (C7_review_loop_counts "Biology" (fun k => [k]) (by simp)).2.2.1⟩

/-- Helper: `approved` stays true across the upload step. -/
theorem approvedOk_send {α : Type} (st : AnkiState α) (h : st.approved = true) :
    approvedOk true (send_to_anki st) = true := by
  unfold send_to_anki
  rw [h]
  cases hf : st.flashcards with
  | none => simp [approvedOk, h]
  | some l => cases l <;> simp [approvedOk, h]

/-- Helper: along the review loop, entered unapproved, the `approved`
flag flips only at an approve event and never resets. -/
theorem approvedOk_reviewLoop {α : Type} (gens : Nat → List α) :
    ∀ (answers : List String) (g : Nat) (st : AnkiState α), st.approved = false →
      approvedOk false (reviewLoop gens g st answers) = true := by
  intro answers
  induction answers with
  | nil => intro g st h; rfl
  | cons a rest ih =>
      intro g st h
      by_cases hy : pyLower (pyStrip a) = "y"
      · simp [reviewLoop, hy, approvedOk, h, approvedOk_send]
      · by_cases hn : pyLower (pyStrip a) = "n"
        · simp [reviewLoop, hy, hn, approvedOk, h, ih]
        · simp [reviewLoop, hy, hn, approvedOk, h, ih]

/-- Helper: the upload step emits no approve event. -/
theorem countApprove_send {α : Type} (st : AnkiState α) :
    countApprove (send_to_anki st) = 0 := by
  unfold send_to_anki
  by_cases h : st.approved = false
  · simp [h, countApprove]
  · cases hf : st.flashcards with
    | none => simp [h, countApprove, List.countP_cons]
    | some l => cases l <;> simp [h, countApprove, List.countP_cons]

/-- Helper: the review loop approves at most once. -/
theorem countApprove_reviewLoop {α : Type} (gens : Nat → List α) :
    ∀ (answers : List String) (g : Nat) (st : AnkiState α),
      countApprove (reviewLoop gens g st answers) ≤ 1 := by
  intro answers
  induction answers with
  | nil => intro g st; exact Nat.zero_le 1
  | cons a rest ih =>
      intro g st
      by_cases hy : pyLower (pyStrip a) = "y"
      · have hsend := countApprove_send ({ st with approved := true } : AnkiState α)
        simp [countApprove, List.countP_cons] at hsend ⊢
        simp [reviewLoop, hy, List.countP_cons]
        exact hsend
      · by_cases hn : pyLower (pyStrip a) = "n"
        · have := ih (g + 1) { st with flashcards := some (gens (g + 1)) }
          simp [countApprove] at this ⊢
          simp [reviewLoop, hy, hn, List.countP_cons, this]
        · have := ih g st
          simp [countApprove] at this ⊢
          simp [reviewLoop, hy, hn, List.countP_cons, this]

/-- Helper: the deck name survives the upload step. -/
theorem deckOk_send {α : Type} (d : String) (st : AnkiState α)
    (h : st.deck_name = some d) : deckOk d (send_to_anki st) = true := by
  unfold send_to_anki
  by_cases ha : st.approved = false
  · simp [ha, deckOk]
  · cases hf : st.flashcards with
    | none => simp [ha, deckOk, h]
    | some l => cases l <;> simp [ha, deckOk, h]

/-- Helper: the deck name never changes along the review loop. -/
theorem deckOk_reviewLoop {α : Type} (d : String) (gens : Nat → List α) :
    ∀ (answers : List String) (g : Nat) (st : AnkiState α), st.deck_name = some d →
      deckOk d (reviewLoop gens g st answers) = true := by
  intro answers
  induction answers with
  | nil => intro g st h; rfl
  | cons a rest ih =>
      intro g st h
      by_cases hy : pyLower (pyStrip a) = "y"
      · simp [reviewLoop, hy, deckOk, h, deckOk_send]
      · by_cases hn : pyLower (pyStrip a) = "n"
        · simp [reviewLoop, hy, hn, deckOk, h, ih]
        · simp [reviewLoop, hy, hn, deckOk, h, ih]

/-- Helper: the upload step emits no generation, save or prompt event. -/
theorem genSaveOk_send {α : Type} [DecidableEq α] (st : AnkiState α)
    (last : Option (List α)) (saved : Bool) :
    genSaveOk last saved (send_to_anki st) = true := by
  unfold send_to_anki
  by_cases ha : st.approved = false
  · simp [ha, genSaveOk]
  · cases hf : st.flashcards with
    | none => simp [ha, genSaveOk]
    | some l => cases l <;> simp [ha, genSaveOk]

/-- Helper: along the review loop, entered with the latest generated set
installed and saved, every new generation wholly replaces the stored set
and is saved before the next prompt. -/
theorem genSaveOk_reviewLoop {α : Type} [DecidableEq α] (gens : Nat → List α) :
    ∀ (answers : List String) (g : Nat) (st : AnkiState α) (c : List α),
      st.flashcards = some c →
      genSaveOk (some c) true (reviewLoop gens g st answers) = true := by
  intro answers
  induction answers with
  | nil => intro g st c h; rfl
  | cons a rest ih =>
      intro g st c h
      by_cases hy : pyLower (pyStrip a) = "y"
      · simp [reviewLoop, hy, genSaveOk, h, genSaveOk_send]
      · by_cases hn : pyLower (pyStrip a) = "n"
        · simp [reviewLoop, hy, hn, genSaveOk, h, ih]
        · simp [reviewLoop, hy, hn, genSaveOk, h, ih]

/-- C9: over every session, the first trace entry shows the deck name
stored once with `approved` still false; `approved` flips to true at
most once, only at a reviewer-acceptance event, and never resets; every
state in the trace carries the initially chosen deck name; and each
generation cycle installs the new card set in the state (wholly
replacing any previous set) and persists it before any review prompt is
shown. -/
theorem C9_state_invariants {α : Type} [DecidableEq α] (d : String)
    (gens : Nat → List α) (answers : List String) :
    (sessionTrace d gens answers).head? = some (FlowEv.setDeck d,
      { deck_name := some d, flashcards := Option.none, approved := false }) ∧
    approvedOk false (sessionTrace d gens answers) = true ∧
    countApprove (sessionTrace d gens answers) ≤ 1 ∧
    deckOk d (sessionTrace d gens answers) = true ∧
    genSaveOk Option.none false (sessionTrace d gens answers) = true := by
  refine ⟨rfl, ?_, ?_, ?_, ?_⟩
  · simp [sessionTrace, approvedOk, approvedOk_reviewLoop]
  · have := countApprove_reviewLoop gens answers 0
      ({ deck_name := some d, flashcards := some (gens 0) } : AnkiState α)
    simp [countApprove] at this ⊢
    simp [sessionTrace, List.countP_cons, this]
  · simp [sessionTrace, deckOk, deckOk_reviewLoop]
  · simp [sessionTrace, genSaveOk, genSaveOk_reviewLoop]
